import Mathlib

/-!
Shallow embedding of the time-windowed execution control hooks of the
Notehooks repository: `useDebounce` (src/unnamed/part_001), `useThrottle`
and `useThrottleCallback` (src/unnamed/part_002).

Timestamps and durations are integers (milliseconds).  The host timer
service (`setTimeout`) treats a negative requested delay as 0, so a
scheduled timer's fire time is `now + max 0 requestedDelay`.  React
rendering is modelled explicitly: a hook's effect re-runs (its cleanup
first, then its body) whenever one of its dependency values changed, and
a state update performed inside an effect triggers such a re-run in a
follow-up render at the same instant.
-/

namespace Notehooks

/-- Options of `useDebounce` (part_001 lines 6-23): `delay`, `leading`,
optional `maxWait`. -/
structure UseDebounceOptions where
  delay : Int
  leading : Bool
  maxWait : Option Int
deriving Repr, DecidableEq

/-- JavaScript truthiness of the `maxWait` option as used by the guard
`if (maxWait && !isFirstCall)` in part_001 line 101: `undefined` and `0`
are falsy, every other number (negative included) is truthy. -/
def maxWaitActive (mw : Option Int) : Bool :=
  match mw with
  | none => false
  | some m => m != 0

/-- State of one `useDebounce` instance: the current input `value`, the
React states `debouncedValue` and `isFirstCall` (part_001 lines 82-83),
and the two timer handles of the effect (lines 94 and 102), each holding
its absolute fire time together with the `value` captured by its
closure. -/
structure DebounceState (α : Type) where
  value : α
  debouncedValue : α
  isFirstCall : Bool
  timer : Option (Int × α)
  maxWaitTimer : Option (Int × α)
deriving Repr, DecidableEq

/-- One run of the first effect of `useDebounce` (part_001 lines 85-114)
at time `now`: the cleanup of the previous run clears both timers (lines
108-113); then, if `leading && isFirstCall`, the value is emitted
immediately and the first-call flag cleared (lines 87-91, early return);
otherwise the quiescence timer is armed for `delay` from now (lines
94-97) and, when `maxWait` is truthy and this is not the first call, the
max-wait timer is armed for `maxWait` from now (lines 100-105). -/
def debounceEffect {α : Type} (cfg : UseDebounceOptions) (s : DebounceState α)
    (now : Int) : DebounceState α :=
  let s := { s with timer := none, maxWaitTimer := none }
  if cfg.leading && s.isFirstCall then
    { s with debouncedValue := s.value, isFirstCall := false }
  else
    { s with
      timer := some (now + max 0 cfg.delay, s.value)
      maxWaitTimer :=
        if maxWaitActive cfg.maxWait && !s.isFirstCall then
          some (now + max 0 (cfg.maxWait.getD 0), s.value)
        else none }

/-- The second effect of `useDebounce` (part_001 lines 117-121): clears
the first-call flag whenever `leading` is false. -/
def debounceResetFirstCall {α : Type} (cfg : UseDebounceOptions)
    (s : DebounceState α) : DebounceState α :=
  if cfg.leading then s else { s with isFirstCall := false }

/-- A render commit of `useDebounce` in which both effects run (mount, or
a change of `value`): effect one, then effect two; if the `isFirstCall`
state changed during the commit, effect one — whose dependency list
includes `isFirstCall` (line 114) — re-runs once in the follow-up render
(the flag only ever moves from `true` to `false`, so one re-run reaches
the fixpoint). -/
def debounceCommit {α : Type} (cfg : UseDebounceOptions) (s : DebounceState α)
    (now : Int) : DebounceState α :=
  let s1 := debounceEffect cfg s now
  let s2 := debounceResetFirstCall cfg s1
  if s2.isFirstCall = s.isFirstCall then s2 else debounceEffect cfg s2 now

/-- Mounting `useDebounce` with initial input `v0` at time `now`: both
React states initialise from `value` (part_001 lines 82-83), then the
initial effects run. -/
def debounceMount {α : Type} (cfg : UseDebounceOptions) (v0 : α) (now : Int) :
    DebounceState α :=
  debounceCommit cfg
    { value := v0, debouncedValue := v0, isFirstCall := true,
      timer := none, maxWaitTimer := none } now

/-- An update: the consumer re-renders the hook with a new input `value`
at time `now`; both effects' dependency lists contain `value`, so both
run. -/
def debounceUpdate {α : Type} (cfg : UseDebounceOptions) (s : DebounceState α)
    (v : α) (now : Int) : DebounceState α :=
  debounceCommit cfg { s with value := v } now

/-- The quiescence timer of `useDebounce` fires at time `now` (part_001
lines 94-97): its closure publishes the captured value and clears the
first-call flag; when that flag actually changed, effect one re-runs in
the follow-up render. `debouncedValue` itself is not among effect one's
dependencies, so publishing the value alone re-runs nothing. -/
def debounceFireTimer {α : Type} (cfg : UseDebounceOptions)
    (s : DebounceState α) (now : Int) : DebounceState α :=
  match s.timer with
  | none => s
  | some (_, v) =>
    let s' := { s with debouncedValue := v, timer := none, isFirstCall := false }
    if s.isFirstCall then debounceEffect cfg s' now else s'

/-- The max-wait timer of `useDebounce` fires (part_001 lines 102-104):
its closure only publishes the captured value. -/
def debounceFireMaxWait {α : Type} (s : DebounceState α) : DebounceState α :=
  match s.maxWaitTimer with
  | none => s
  | some (_, v) => { s with debouncedValue := v, maxWaitTimer := none }

/-- Options shared by `useThrottle` and `useThrottleCallback` (part_002
lines 6-22). -/
structure UseThrottleOptions where
  delay : Int
  leading : Bool
  trailing : Bool
deriving Repr, DecidableEq

/-- State of one `useThrottle` (value) instance: the current input, the
React state `throttledValue` (part_002 line 86), the refs
`lastExecutedRef` (line 87, initialised to 0), `timeoutRef` (line 90,
holding the scheduled fire time and the `value` captured by the timer
closure) and `isFirstCallRef` (line 92). -/
structure ThrottleState (α : Type) where
  value : α
  throttledValue : α
  lastExecuted : Int
  timer : Option (Int × α)
  isFirstCall : Bool
deriving Repr, DecidableEq

/-- One run of the `useThrottle` effect (part_002 lines 94-136) at time
`now`: the cleanup of the previous run clears the pending timer (lines
131-135); leading edge (lines 99-111) emits immediately, re-anchors
`lastExecuted`, clears any pending trailing timer and returns; otherwise
the trailing edge (lines 114-126) replaces the pending timer with one
scheduled `delay - timeSinceLastExecution` from now — the host clamps a
negative requested delay to 0 — whose closure captures the current
`value`; finally the first-call flag is cleared (line 128). -/
def throttleEffect {α : Type} (cfg : UseThrottleOptions) (s : ThrottleState α)
    (now : Int) : ThrottleState α :=
  let s := { s with timer := none }
  let timeSince := now - s.lastExecuted
  if (cfg.leading && s.isFirstCall) || (cfg.leading && decide (timeSince ≥ cfg.delay)) then
    { s with throttledValue := s.value, lastExecuted := now,
             isFirstCall := false, timer := none }
  else if cfg.trailing then
    { s with timer := some (now + max 0 (cfg.delay - timeSince), s.value),
             isFirstCall := false }
  else
    { s with isFirstCall := false }

/-- Mounting `useThrottle` with initial input `v0` at time `now`:
`throttledValue` initialises to `value` (line 86), `lastExecutedRef` to 0
(line 87), `isFirstCallRef` to `true` (line 92), then the effect runs. -/
def throttleMount {α : Type} (cfg : UseThrottleOptions) (v0 : α) (now : Int) :
    ThrottleState α :=
  throttleEffect cfg
    { value := v0, throttledValue := v0, lastExecuted := 0,
      timer := none, isFirstCall := true } now

/-- An update of `useThrottle`: re-render with a new input `value`; the
effect's dependency list contains `value` (line 136), so it re-runs. -/
def throttleUpdate {α : Type} (cfg : UseThrottleOptions) (s : ThrottleState α)
    (v : α) (now : Int) : ThrottleState α :=
  throttleEffect cfg { s with value := v } now

/-- The trailing timer of `useThrottle` fires at time `now` (part_002
lines 121-125): its closure publishes the captured value, sets
`lastExecutedRef` to the actual fire time (`Date.now()`), and clears the
handle. `throttledValue` is not among the effect's dependencies, so
nothing re-runs. -/
def throttleFire {α : Type} (s : ThrottleState α) (now : Int) :
    ThrottleState α :=
  match s.timer with
  | none => s
  | some (_, v) =>
    { s with throttledValue := v, lastExecuted := now, timer := none }

/-- State of one `useThrottleCallback` instance (part_002 lines 183-281):
`cb` is `callbackRef.current` (line 196, rewritten on every render, line
199); `isThrottled` the React state (line 189); `lastExecuted` the ref of
line 190 (initialised to 0); `timer` the handle of line 193 holding the
scheduled fire time — the pending payload is *not* baked into it, the
closure reads `pendingArgsRef` and `callbackRef` at fire time;
`pendingArgs` the ref of line 195; `emits` the log of actual invocations
of the wrapped function, each recording the invocation time, the function
reference used and the argument list. -/
structure TCState (φ α : Type) where
  cb : φ
  isThrottled : Bool
  lastExecuted : Int
  timer : Option Int
  pendingArgs : Option α
  emits : List (Int × φ × α)
deriving Repr, DecidableEq

namespace TCState

/-- Initial state of `useThrottleCallback` wrapping `f`. -/
def init {φ α : Type} (f : φ) : TCState φ α :=
  { cb := f, isThrottled := false, lastExecuted := 0,
    timer := none, pendingArgs := none, emits := [] }

/-- Every render writes the freshly supplied callback into the ref
(part_002 line 199). -/
def setCallback {φ α : Type} (s : TCState φ α) (f : φ) : TCState φ α :=
  { s with cb := f }

/-- `throttledCallback(...args)` at time `now` (part_002 lines 222-264):
leading edge (lines 228-240) invokes the current callback synchronously,
re-anchors `lastExecuted = now`, clears `isThrottled`, any pending timer
and the pending arguments, and returns; otherwise the trailing edge
(lines 243-261) stores `args` as pending, sets `isThrottled`, clears any
prior timer and schedules a fresh one `Math.max(0, delay -
timeSinceLastExecution)` from now; with both edges disabled the call is
dropped. -/
def invoke {φ α : Type} (cfg : UseThrottleOptions) (s : TCState φ α)
    (now : Int) (args : α) : TCState φ α :=
  let timeSince := now - s.lastExecuted
  if cfg.leading && decide (timeSince ≥ cfg.delay) then
    { s with emits := s.emits ++ [(now, s.cb, args)], lastExecuted := now,
             isThrottled := false, timer := none, pendingArgs := none }
  else if cfg.trailing then
    { s with pendingArgs := some args, isThrottled := true,
             timer := some (now + max 0 (cfg.delay - timeSince)) }
  else s

/-- The scheduled timer fires at time `now` (part_002 lines 252-260): if
arguments are pending, the closure invokes the *current* `callbackRef`
with them, sets `lastExecuted` to the actual fire time and clears the
pending arguments; either way the handle is released and `isThrottled`
cleared. -/
def fire {φ α : Type} (s : TCState φ α) (now : Int) : TCState φ α :=
  match s.timer with
  | none => s
  | some _ =>
    match s.pendingArgs with
    | some a =>
      { s with emits := s.emits ++ [(now, s.cb, a)], lastExecuted := now,
               pendingArgs := none, timer := none, isThrottled := false }
    | none => { s with timer := none, isThrottled := false }

/-- `cancel()` (part_002 lines 201-208): clears the timer handle, drops
the pending arguments and clears `isThrottled` — the wrapped function is
not invoked and `lastExecuted` is untouched. -/
def cancel {φ α : Type} (s : TCState φ α) : TCState φ α :=
  { s with timer := none, pendingArgs := none, isThrottled := false }

/-- `flush()` at time `now` (part_002 lines 210-220): only when both a
timer handle and pending arguments exist, it clears the timer, invokes
the current `callbackRef` synchronously with the pending arguments, sets
`lastExecuted := Date.now()` and clears the pending state and
`isThrottled`; otherwise it does nothing. -/
def flush {φ α : Type} (s : TCState φ α) (now : Int) : TCState φ α :=
  match s.timer, s.pendingArgs with
  | some _, some a =>
    { s with timer := none,
             emits := s.emits ++ [(now, s.cb, a)], lastExecuted := now,
             pendingArgs := none, isThrottled := false }
  | _, _ => s

end TCState

end Notehooks

namespace Notehooks.Claims

/-- Claim C9: for every initial input value `v`, the Debounce gate's and
the Throttle-Value gate's externally visible output equals `v`
immediately at construction, before any delay has elapsed — the initial
value is never delayed or withheld. -/
theorem C9_initial_value_visible {α : Type} (dcfg : UseDebounceOptions)
    (tcfg : UseThrottleOptions) (v : α) (t u : Int) :
    (debounceMount dcfg v t).debouncedValue = v ∧
    (throttleMount tcfg v u).throttledValue = v := by
  constructor
  · simp only [debounceMount, debounceCommit, debounceEffect,
      debounceResetFirstCall]
    split <;> split <;> simp_all <;> split <;> simp_all
  · simp only [throttleMount, throttleEffect]
    split <;> simp_all <;> split <;> simp_all

/-- Claim C10: with `leading = false` and `trailing = true`, the first
ever invoke of the Throttle-Callback gate schedules its trailing
invocation with an effective wait of zero: `lastExecutedRef` starts at
timestamp 0, so the computed remaining delay `delay - (now - 0)` is
negative and `Math.max(0, ...)` clamps it to 0 — the timer is scheduled
to fire at `now` itself, not a full delay later. -/
theorem C10_first_invoke_fires_next_tick {φ α : Type}
    (cfg : UseThrottleOptions) (f : φ) (now : Int) (args : α)
    (hl : cfg.leading = false) (ht : cfg.trailing = true)
    (hn : cfg.delay < now) :
    cfg.delay - (now - (TCState.init f : TCState φ α).lastExecuted) < 0 ∧
    (TCState.invoke cfg (TCState.init f) now args).timer = some now ∧
    (TCState.invoke cfg (TCState.init f) now args).pendingArgs = some args ∧
    (TCState.fire (TCState.invoke cfg (TCState.init f) now args) now).emits
      = [(now, f, args)] := by
  refine ⟨by simp [TCState.init]; omega, ?_, ?_, ?_⟩ <;>
    simp [TCState.invoke, TCState.fire, TCState.init, hl, ht] <;> omega

/-- Witness for C10 at `delay = 300`, first invoke at absolute time 1000
with argument 7. -/
theorem C10_witness :
    (300 : Int) - (1000 - (TCState.init 0 : TCState Nat Nat).lastExecuted) < 0 ∧
    (TCState.invoke ⟨300, false, true⟩ (TCState.init 0 : TCState Nat Nat) 1000 7).timer
      = some 1000 ∧
    (TCState.invoke ⟨300, false, true⟩ (TCState.init 0 : TCState Nat Nat) 1000 7).pendingArgs
      = some 7 ∧
    (TCState.fire
        (TCState.invoke ⟨300, false, true⟩ (TCState.init 0 : TCState Nat Nat) 1000 7)
        1000).emits = [(1000, 0, 7)] :=
  C10_first_invoke_fires_next_tick ⟨300, false, true⟩ 0 1000 7 rfl rfl (by decide)

/-- Claim C7: a trailing invocation of the Throttle-Callback gate —
whether timer-fired or flushed — calls the function reference current in
`callbackRef` at fire time (here `g`, installed after scheduling), never
the reference `s.cb` that was current when the trailing emission was
scheduled. -/
theorem C7_latest_callback_at_fire {φ α : Type} (s : TCState φ α) (g : φ)
    (ft now now2 : Int) (a : α)
    (ht : s.timer = some ft) (hp : s.pendingArgs = some a) :
    (TCState.fire (TCState.setCallback s g) now).emits
      = s.emits ++ [(now, g, a)] ∧
    (TCState.flush (TCState.setCallback s g) now2).emits
      = s.emits ++ [(now2, g, a)] := by
  constructor <;> simp [TCState.fire, TCState.flush, TCState.setCallback, ht, hp]

/-- Witness for C7: the pending state was scheduled while the wrapped
function was reference 0; reference 1 is supplied afterwards, and both
the timer-fired path and the flush path invoke reference 1. -/
theorem C7_witness :
    (TCState.fire
        (TCState.setCallback
          ({ cb := 0, isThrottled := true, lastExecuted := 40,
             timer := some 140, pendingArgs := some 7, emits := [] } : TCState Nat Nat) 1)
        140).emits = [(140, 1, 7)] ∧
    (TCState.flush
        (TCState.setCallback
          ({ cb := 0, isThrottled := true, lastExecuted := 40,
             timer := some 140, pendingArgs := some 7, emits := [] } : TCState Nat Nat) 1)
        90).emits = [(90, 1, 7)] :=
  C7_latest_callback_at_fire
    { cb := 0, isThrottled := true, lastExecuted := 40,
      timer := some 140, pendingArgs := some 7, emits := [] }
    1 140 140 90 7 rfl rfl

/-- Claim C6: `flush()` invokes the wrapped function synchronously with
the pending arguments exactly when a trailing emission is pending (a
timer handle and pending arguments both present, the shape of the spec's
PendingEmission), clearing the pending state, the timer and
`isThrottled` and re-anchoring `lastExecuted`; with nothing pending it is
a no-op, never an error; and two consecutive flushes with nothing newly
invoked between them invoke the wrapped function at most once. -/
theorem C6_flush_exactly_when_pending {φ α : Type} (s : TCState φ α)
    (now now2 : Int) :
    (∀ (ft : Int) (a : α), s.timer = some ft → s.pendingArgs = some a →
      TCState.flush s now =
        { s with timer := none, pendingArgs := none, isThrottled := false,
                 lastExecuted := now, emits := s.emits ++ [(now, s.cb, a)] }) ∧
    (s.timer = none ∨ s.pendingArgs = none → TCState.flush s now = s) ∧
    (TCState.flush (TCState.flush s now) now2).emits.length
      ≤ s.emits.length + 1 := by
  refine ⟨?_, ?_, ?_⟩
  · intro ft a ht hp
    simp [TCState.flush, ht, hp]
  · intro h
    rcases h with h | h <;> simp [TCState.flush, h] <;> split <;> simp_all
  · rcases ht : s.timer with _ | ft <;> rcases hp : s.pendingArgs with _ | a <;>
      simp [TCState.flush, ht, hp]

/-- Witness for C6 at a concrete pending state: the first flush invokes
the wrapped function with the pending argument 7, the second flush is a
no-op, so the pair performs exactly one invocation. -/
theorem C6_witness :
    TCState.flush
        ({ cb := 0, isThrottled := true, lastExecuted := 40,
           timer := some 140, pendingArgs := some 7, emits := [] } : TCState Nat Nat) 90
      = { cb := 0, isThrottled := false, lastExecuted := 90,
          timer := none, pendingArgs := none, emits := [(90, 0, 7)] } ∧
    TCState.flush
        ({ cb := 0, isThrottled := false, lastExecuted := 90,
           timer := none, pendingArgs := none, emits := [(90, 0, 7)] } : TCState Nat Nat) 95
      = { cb := 0, isThrottled := false, lastExecuted := 90,
          timer := none, pendingArgs := none, emits := [(90, 0, 7)] } := by
  have h := C6_flush_exactly_when_pending
    ({ cb := 0, isThrottled := true, lastExecuted := 40,
       timer := some 140, pendingArgs := some 7, emits := [] } : TCState Nat Nat) 90 95
  have h2 := C6_flush_exactly_when_pending
    ({ cb := 0, isThrottled := false, lastExecuted := 90,
       timer := none, pendingArgs := none, emits := [(90, 0, 7)] } : TCState Nat Nat) 95 100
  exact ⟨(h.1 140 7 rfl rfl).trans (by decide), h2.2.1 (Or.inl rfl)⟩

/-- Claim C1: for the Throttle-Value and Throttle-Callback gates, an
update/invoke arriving while a trailing emission is pending replaces the
pending payload with the new value/arguments, and the timer is
(re)scheduled to fire `delay - (now - lastFired)` from now, clamped to
be nonnegative — so while `now` is still inside the window the fire time
stays anchored at the original window boundary `lastFired + delay`; on
fire the pending payload is emitted and `lastFired` is set to the fire
time. -/
theorem C1_trailing_replace_keeps_anchor {φ α : Type}
    (cfg : UseThrottleOptions) (htr : cfg.trailing = true) :
    (∀ (s : TCState φ α) (ft now : Int) (args b : α),
      s.timer = some ft → s.pendingArgs = some b →
      (cfg.leading && decide (now - s.lastExecuted ≥ cfg.delay)) = false →
      (TCState.invoke cfg s now args).pendingArgs = some args ∧
      (TCState.invoke cfg s now args).timer
        = some (now + max 0 (cfg.delay - (now - s.lastExecuted))) ∧
      (now ≤ s.lastExecuted + cfg.delay →
        (TCState.invoke cfg s now args).timer
          = some (s.lastExecuted + cfg.delay))) ∧
    (∀ (s : TCState φ α) (ft fnow : Int) (a : α),
      s.timer = some ft → s.pendingArgs = some a →
      (TCState.fire s fnow).emits = s.emits ++ [(fnow, s.cb, a)] ∧
      (TCState.fire s fnow).lastExecuted = fnow ∧
      (TCState.fire s fnow).pendingArgs = none) ∧
    (∀ (t : ThrottleState α) (ft now : Int) (v w : α),
      t.timer = some (ft, w) → t.isFirstCall = false →
      (cfg.leading && decide (now - t.lastExecuted ≥ cfg.delay)) = false →
      (throttleUpdate cfg t v now).timer
        = some (now + max 0 (cfg.delay - (now - t.lastExecuted)), v) ∧
      (now ≤ t.lastExecuted + cfg.delay →
        (throttleUpdate cfg t v now).timer
          = some (t.lastExecuted + cfg.delay, v))) ∧
    (∀ (t : ThrottleState α) (ft fnow : Int) (w : α),
      t.timer = some (ft, w) →
      (throttleFire t fnow).throttledValue = w ∧
      (throttleFire t fnow).lastExecuted = fnow) := by
  refine ⟨?_, ?_, ?_, ?_⟩
  · intro s ft now args b ht hp hnl
    refine ⟨?_, ?_, ?_⟩ <;>
      simp [TCState.invoke, hnl, htr] <;> omega
  · intro s ft fnow a ht hp
    refine ⟨?_, ?_, ?_⟩ <;> simp [TCState.fire, ht, hp]
  · intro t ft now v w ht hfc hnl
    constructor <;>
      simp [throttleUpdate, throttleEffect, hnl, hfc, htr] <;> omega
  · intro t ft fnow w ht
    constructor <;> simp [throttleFire, ht]

/-- Witness for C1 with `delay = 100`, `leading = trailing = true`:
payload 2 is pending with the window anchored at `lastFired = 40`; a
call at time 90 replaces the payload with 3 and keeps the fire time at
140 = 40 + 100, and the fire at 140 emits payload 3 and re-anchors
`lastFired` to 140 — likewise for the value gate. -/
theorem C1_witness :
    ((TCState.invoke ⟨100, true, true⟩
        ({ cb := 0, isThrottled := true, lastExecuted := 40,
           timer := some 140, pendingArgs := some 2, emits := [] } : TCState Nat Nat)
        90 3).pendingArgs = some 3 ∧
     (TCState.invoke ⟨100, true, true⟩
        ({ cb := 0, isThrottled := true, lastExecuted := 40,
           timer := some 140, pendingArgs := some 2, emits := [] } : TCState Nat Nat)
        90 3).timer = some 140) ∧
    ((TCState.fire
        ({ cb := 0, isThrottled := true, lastExecuted := 40,
           timer := some 140, pendingArgs := some 3, emits := [] } : TCState Nat Nat)
        140).emits = [(140, 0, 3)] ∧
     (TCState.fire
        ({ cb := 0, isThrottled := true, lastExecuted := 40,
           timer := some 140, pendingArgs := some 3, emits := [] } : TCState Nat Nat)
        140).lastExecuted = 140) ∧
    ((throttleUpdate ⟨100, true, true⟩
        ({ value := 2, throttledValue := 1, lastExecuted := 40,
           timer := some (140, 2), isFirstCall := false } : ThrottleState Nat)
        3 90).timer = some (140, 3)) ∧
    ((throttleFire
        ({ value := 3, throttledValue := 1, lastExecuted := 40,
           timer := some (140, 3), isFirstCall := false } : ThrottleState Nat)
        140).throttledValue = 3 ∧
     (throttleFire
        ({ value := 3, throttledValue := 1, lastExecuted := 40,
           timer := some (140, 3), isFirstCall := false } : ThrottleState Nat)
        140).lastExecuted = 140) := by
  have h := C1_trailing_replace_keeps_anchor (φ := Nat) (α := Nat)
    ⟨100, true, true⟩ rfl
  refine ⟨?_, ?_, ?_, ?_⟩
  · have h1 := h.1
      { cb := 0, isThrottled := true, lastExecuted := 40,
        timer := some 140, pendingArgs := some 2, emits := [] }
      140 90 3 2 rfl rfl (by decide)
    exact ⟨h1.1, (h1.2.2 (by decide))⟩
  · have h2 := h.2.1
      { cb := 0, isThrottled := true, lastExecuted := 40,
        timer := some 140, pendingArgs := some 3, emits := [] }
      140 140 3 rfl rfl
    exact ⟨h2.1, h2.2.1⟩
  · have h3 := h.2.2.1
      { value := 2, throttledValue := 1, lastExecuted := 40,
        timer := some (140, 2), isFirstCall := false }
      140 90 3 2 rfl rfl (by decide)
    exact h3.2 (by decide)
  · have h4 := h.2.2.2
      { value := 3, throttledValue := 1, lastExecuted := 40,
        timer := some (140, 3), isFirstCall := false }
      140 140 3 rfl
    exact h4

/-! Claim C2: a continuous burst for the Debounce gate with
`delay = 300`, `maxWait = 1000`, `leading = false`: mount with value 0
at t = 0, then updates 1..7 every 200 ms (gaps 200 < delay) from t = 200
to t = 1400 — the burst lasts 1200 > maxWait. -/

def burstCfg : UseDebounceOptions := ⟨300, false, some 1000⟩

def burst0 : DebounceState Nat := debounceMount burstCfg 0 0
def burst1 : DebounceState Nat := debounceUpdate burstCfg burst0 1 200
def burst2 : DebounceState Nat := debounceUpdate burstCfg burst1 2 400
def burst3 : DebounceState Nat := debounceUpdate burstCfg burst2 3 600
def burst4 : DebounceState Nat := debounceUpdate burstCfg burst3 4 800
def burst5 : DebounceState Nat := debounceUpdate burstCfg burst4 5 1000
def burst6 : DebounceState Nat := debounceUpdate burstCfg burst5 6 1200
def burst7 : DebounceState Nat := debounceUpdate burstCfg burst6 7 1400

/-- Claim C2 evaluated at its failing input: every update clears and
re-arms the max-wait timer for a full `maxWait` from the update itself
(never from the burst start), so after each update both pending timers
fire strictly later than the next update (no timer ever fires inside the
burst), and at t = 1400 — already 1200 ms into the burst, past
`maxWait = 1000` after the burst began at t = 200 — the output is still
the initial value 0: no emission occurred at or before `maxWait` after
burst start, contradicting the claim (and the hook's own documentation
of `maxWait`). -/
theorem C2_maxwait_timer_starved :
    (burst0.debouncedValue = 0 ∧ burst1.debouncedValue = 0 ∧
     burst2.debouncedValue = 0 ∧ burst3.debouncedValue = 0 ∧
     burst4.debouncedValue = 0 ∧ burst5.debouncedValue = 0 ∧
     burst6.debouncedValue = 0 ∧ burst7.debouncedValue = 0) ∧
    (burst0.timer = some (300, 0) ∧ burst0.maxWaitTimer = some (1000, 0)) ∧
    (burst1.timer = some (500, 1) ∧ burst1.maxWaitTimer = some (1200, 1)) ∧
    (burst2.timer = some (700, 2) ∧ burst2.maxWaitTimer = some (1400, 2)) ∧
    (burst3.timer = some (900, 3) ∧ burst3.maxWaitTimer = some (1600, 3)) ∧
    (burst4.timer = some (1100, 4) ∧ burst4.maxWaitTimer = some (1800, 4)) ∧
    (burst5.timer = some (1300, 5) ∧ burst5.maxWaitTimer = some (2000, 5)) ∧
    (burst6.timer = some (1500, 6) ∧ burst6.maxWaitTimer = some (2200, 6)) ∧
    (burst7.timer = some (1700, 7) ∧ burst7.maxWaitTimer = some (2400, 7)) := by
  decide

/-! Claim C3: the spec's concrete scenario, `delay = 100`,
`leading = trailing = true`, calls at relative times 0,30,60,90,130
(absolute 1000..1130, so that the first call opens a window) with
payloads A..E encoded as 0..4, run on both throttle gates. -/

def scenCfg : UseThrottleOptions := ⟨100, true, true⟩

def scen1 : TCState Unit Nat :=
  TCState.invoke scenCfg (TCState.init ()) 1000 0
def scen2 : TCState Unit Nat := TCState.invoke scenCfg scen1 1030 1
def scen3 : TCState Unit Nat := TCState.invoke scenCfg scen2 1060 2
def scen4 : TCState Unit Nat := TCState.invoke scenCfg scen3 1090 3
def scen5 : TCState Unit Nat := TCState.fire scen4 1100
def scen6 : TCState Unit Nat := TCState.invoke scenCfg scen5 1130 4
def scen7 : TCState Unit Nat := TCState.fire scen6 1200

def scenV0 : ThrottleState Nat := throttleMount scenCfg 0 1000
def scenV1 : ThrottleState Nat := throttleUpdate scenCfg scenV0 1 1030
def scenV2 : ThrottleState Nat := throttleUpdate scenCfg scenV1 2 1060
def scenV3 : ThrottleState Nat := throttleUpdate scenCfg scenV2 3 1090
def scenV4 : ThrottleState Nat := throttleFire scenV3 1100
def scenV5 : ThrottleState Nat := throttleUpdate scenCfg scenV4 4 1130

/-- Claim C3 evaluated on its own scenario: after the trailing fire at
t≈100 re-anchors the window at 100, the call carrying E (payload 4) at
t=130 is only 30 ms into the new window, so it does *not* trigger a
leading emission — the invocation log still ends with D (payload 3), E
merely becomes the pending trailing payload scheduled for t=200; the
value gate likewise still shows D after the t=130 update. This refutes
the claimed immediate leading emission of E. -/
theorem C3_scenario_cex :
    scen6.emits = [(1000, (), 0), (1100, (), 3)] ∧
    scen6.pendingArgs = some 4 ∧
    scen6.timer = some 1200 ∧
    scenV5.throttledValue = 3 ∧
    scenV5.timer = some (1200, 4) := by
  decide

/-- Claim C3 as amended: A (payload 0) is emitted at t=0 as a leading
emission; B and C are replaced while pending; a trailing emission with
payload D (3) fires at t≈100, re-anchoring the window at 100; the call
carrying E (4) at t=130 arrives only 30 ms into that window, so it does
not emit immediately — it becomes the pending trailing payload and is
emitted by the trailing timer at t≈200. Both throttle gates agree. -/
theorem C3_amended_trace :
    (scen1.emits = [(1000, (), 0)] ∧ scen1.lastExecuted = 1000) ∧
    (scen4.pendingArgs = some 3 ∧ scen4.timer = some 1100) ∧
    (scen5.emits = [(1000, (), 0), (1100, (), 3)] ∧
     scen5.lastExecuted = 1100 ∧ scen5.pendingArgs = none) ∧
    (scen6.pendingArgs = some 4 ∧ scen6.timer = some 1200) ∧
    (scen7.emits = [(1000, (), 0), (1100, (), 3), (1200, (), 4)]) ∧
    (scenV0.throttledValue = 0 ∧ scenV0.lastExecuted = 1000) ∧
    (scenV3.timer = some (1100, 3)) ∧
    (scenV4.throttledValue = 3 ∧ scenV4.lastExecuted = 1100) ∧
    (scenV5.throttledValue = 3 ∧ scenV5.timer = some (1200, 4)) := by
  decide

/-! Claim C4: Debounce gate with `delay = 300`, `leading = true`, no
`maxWait`: mount with value 0 at t = 0, let the mount-armed quiescence
timer fire at t = 300 (the gate is then idle: no timer pending), then
the first real update, value 1, arrives at t = 400. -/

def leadCfg : UseDebounceOptions := ⟨300, true, none⟩

def lead0 : DebounceState Nat := debounceMount leadCfg 0 0
def lead1 : DebounceState Nat := debounceFireTimer leadCfg lead0 300
def lead2 : DebounceState Nat := debounceUpdate leadCfg lead1 1 400

/-- Claim C4 evaluated at a failing input: the first-call flag is
consumed by the initial render, so when the first update (value 1)
reaches the idle gate at t = 400 with `leading = true`, the output stays
0 — no immediate emission — and only the quiescence timer for t = 700 is
armed, refuting the claim that the very first update in an idle gate
emits immediately. -/
theorem C4_first_update_not_immediate_cex :
    lead1.timer = none ∧ lead1.maxWaitTimer = none ∧
    lead1.debouncedValue = 0 ∧
    lead2.value = 1 ∧ lead2.debouncedValue = 0 ∧
    lead2.timer = some (700, 1) := by
  decide

/-- Claim C4 as amended: with `leading = true`, the immediate-emission
path runs only on the hook's initial render, where it publishes the
initial value (already the visible output) and — by consuming the
first-call flag, whose change re-runs the effect — also arms the
quiescence timer; thereafter the flag stays false, so every later
update, including the first one into an idle gate, emits nothing
immediately and only (re)arms the quiescence timer for `delay` from the
update. -/
theorem C4_leading_only_initial_render {α : Type} (cfg : UseDebounceOptions)
    (v0 : α) (t : Int) (hl : cfg.leading = true) :
    (debounceMount cfg v0 t).debouncedValue = v0 ∧
    (debounceMount cfg v0 t).isFirstCall = false ∧
    (debounceMount cfg v0 t).timer = some (t + max 0 cfg.delay, v0) ∧
    (∀ (s : DebounceState α) (v : α) (u : Int), s.isFirstCall = false →
      (debounceUpdate cfg s v u).debouncedValue = s.debouncedValue ∧
      (debounceUpdate cfg s v u).timer = some (u + max 0 cfg.delay, v)) := by
  refine ⟨?_, ?_, ?_, ?_⟩
  · simp [debounceMount, debounceCommit, debounceEffect,
      debounceResetFirstCall, hl]
  · simp [debounceMount, debounceCommit, debounceEffect,
      debounceResetFirstCall, hl]
  · simp [debounceMount, debounceCommit, debounceEffect,
      debounceResetFirstCall, hl]
  · intro s v u hfc
    constructor <;>
      simp [debounceUpdate, debounceCommit, debounceEffect,
        debounceResetFirstCall, hl, hfc]

/-- Witness for the amended C4 at `delay = 300`, `leading = true`: the
mount at t = 0 shows value 0 and arms the timer for t = 300; the update
to value 1 at t = 400 on the idle gate leaves the output at 0 and arms
the timer for t = 700. -/
theorem C4_witness :
    (debounceMount ⟨300, true, none⟩ (0 : Nat) 0).debouncedValue = 0 ∧
    (debounceMount ⟨300, true, none⟩ (0 : Nat) 0).timer = some (300, 0) ∧
    (debounceUpdate ⟨300, true, none⟩
      { value := 0, debouncedValue := 0, isFirstCall := false,
        timer := none, maxWaitTimer := none } 1 400).debouncedValue = 0 ∧
    (debounceUpdate ⟨300, true, none⟩
      { value := 0, debouncedValue := 0, isFirstCall := false,
        timer := none, maxWaitTimer := none } 1 400).timer
      = some (700, 1) := by
  have h := C4_leading_only_initial_render ⟨300, true, none⟩ (0 : Nat) 0 rfl
  have h2 := h.2.2.2
    { value := 0, debouncedValue := 0, isFirstCall := false,
      timer := none, maxWaitTimer := none } 1 400 rfl
  refine ⟨h.1, ?_, h2.1, ?_⟩
  · have := h.2.2.1
    simpa using this
  · simpa using h2.2

/-! Claim C5: Throttle-Callback gate with `delay = 100`,
`leading = trailing = true`: a leading emission at t = 1000 anchors the
window; an invoke at t = 1030 goes pending; `cancel()` at t ≈ 1040; a
further invoke at t = 1050. -/

def can1 : TCState Unit Nat :=
  TCState.invoke ⟨100, true, true⟩ (TCState.init ()) 1000 0
def can2 : TCState Unit Nat := TCState.invoke ⟨100, true, true⟩ can1 1030 1
def can3 : TCState Unit Nat := TCState.cancel can2
def can4 : TCState Unit Nat := TCState.invoke ⟨100, true, true⟩ can3 1050 2

/-- Claim C5 evaluated at a failing input: `cancel()` does discard the
pending emission, clear the timer and `isThrottled` without invoking,
but it leaves `lastExecuted` at 1000, so the invoke at t = 1050 — with
`leading = true` but only 50 ms into the still-open window — does *not*
emit immediately: the log still holds only the leading emission, and the
new call merely goes pending. This refutes the claimed transition to
`Idle` with an immediate leading emission after `cancel()`. -/
theorem C5_cancel_keeps_window_cex :
    can2.pendingArgs = some 1 ∧ can2.timer = some 1100 ∧
    can3.timer = none ∧ can3.pendingArgs = none ∧
    can3.isThrottled = false ∧ can3.emits = [(1000, (), 0)] ∧
    can3.lastExecuted = 1000 ∧
    can4.emits = [(1000, (), 0)] ∧ can4.pendingArgs = some 2 := by
  decide

/-- Claim C5 as amended: `cancel()` discards any pending trailing
emission, clears its timer and `isThrottled` without invoking the
wrapped function, and is observationally a no-op when nothing is
pending; but it does not touch the last-execution anchor, so the window
is *not* closed: a subsequent invoke with `leading = true` emits
immediately exactly when at least `delay` has elapsed since the last
execution, and while the window is still open it only becomes a new
pending trailing emission. -/
theorem C5_cancel_discards_pending {φ α : Type} (cfg : UseThrottleOptions)
    (s : TCState φ α) (now : Int) (args : α) :
    (TCState.cancel s).timer = none ∧
    (TCState.cancel s).pendingArgs = none ∧
    (TCState.cancel s).isThrottled = false ∧
    (TCState.cancel s).emits = s.emits ∧
    (TCState.cancel s).lastExecuted = s.lastExecuted ∧
    (s.timer = none → s.pendingArgs = none → s.isThrottled = false →
      TCState.cancel s = s) ∧
    (cfg.leading = true → cfg.delay ≤ now - s.lastExecuted →
      (TCState.invoke cfg (TCState.cancel s) now args).emits
        = s.emits ++ [(now, s.cb, args)]) ∧
    (cfg.leading = true → cfg.trailing = true →
      now - s.lastExecuted < cfg.delay →
      (TCState.invoke cfg (TCState.cancel s) now args).emits = s.emits ∧
      (TCState.invoke cfg (TCState.cancel s) now args).pendingArgs
        = some args) := by
  refine ⟨rfl, rfl, rfl, rfl, rfl, ?_, ?_, ?_⟩
  · intro ht hp hth
    cases s
    simp_all [TCState.cancel]
  · intro hl hd
    simp [TCState.invoke, TCState.cancel, hl, hd]
  · intro hl htr hd
    have hneg : ¬(cfg.leading = true ∧ cfg.delay ≤ now - s.lastExecuted) := by
      rintro ⟨-, h2⟩
      omega
    constructor <;> simp [TCState.invoke, TCState.cancel, htr, hneg]

/-- Witness for the amended C5 at the concrete cancel scenario: the
cancel of the pending state at window anchor 1000 clears everything
without emitting; the invoke 50 ms later stays throttled, while an
invoke at t = 1100 (a full delay after the anchor) emits immediately;
and cancelling an idle gate is the identity. -/
theorem C5_witness :
    can3.timer = none ∧ can3.emits = can2.emits ∧
    can3.lastExecuted = can2.lastExecuted ∧
    (TCState.invoke ⟨100, true, true⟩ (TCState.cancel can2) 1050 2).emits
      = can2.emits ∧
    (TCState.invoke ⟨100, true, true⟩ (TCState.cancel can2) 1050 2).pendingArgs
      = some 2 ∧
    (TCState.invoke ⟨100, true, true⟩ (TCState.cancel can2) 1100 2).emits
      = can2.emits ++ [(1100, (), 2)] ∧
    TCState.cancel (TCState.init () : TCState Unit Nat) = TCState.init () := by
  have h1 := C5_cancel_discards_pending ⟨100, true, true⟩ can2 1050 (2 : Nat)
  have h2 := C5_cancel_discards_pending ⟨100, true, true⟩ can2 1100 (2 : Nat)
  have h3 := C5_cancel_discards_pending ⟨100, true, true⟩
    (TCState.init () : TCState Unit Nat) 1100 (2 : Nat)
  have hwin := h1.2.2.2.2.2.2.2 rfl rfl (by decide)
  refine ⟨h1.1, h1.2.2.2.1, h1.2.2.2.2.1, hwin.1, hwin.2, ?_, ?_⟩
  · have := h2.2.2.2.2.2.2.1 rfl (by decide)
    simpa using this
  · exact h3.2.2.2.2.2.1 rfl rfl rfl

/-- Claim C8 evaluated at a failing input: a Throttle-Callback gate
constructed with `delay = -100` is not rejected — its very first invoke
at t = 1000 performs a normal leading emission — and a Debounce gate
constructed with `delay = -5`, `maxWait = -3` is not rejected either:
its mount arms both timers (the negative requested delays are clamped
to 0 by the timer service), so no fail-fast construction-time check
exists anywhere. -/
theorem C8_negative_delay_accepted_cex :
    (TCState.invoke ⟨-100, true, true⟩ (TCState.init 0 : TCState Nat Nat)
        1000 7).emits = [(1000, 0, 7)] ∧
    (debounceMount ⟨-5, false, some (-3)⟩ (0 : Nat) 0).timer
      = some (0, 0) ∧
    (debounceMount ⟨-5, false, some (-3)⟩ (0 : Nat) 0).maxWaitTimer
      = some (0, 0) := by
  decide

/-- Claim C8 as amended: a negative `delay` or `maxWait` is accepted
silently — neither gate performs any construction-time validation. A
negative-delay throttle gate with `leading = true` takes the leading
branch on every invoke not earlier than the last execution, and a
negative-delay debounce gate arms its quiescence timer with the
requested delay clamped to 0, so it fires on the next tick. -/
theorem C8_negative_delay_silently_clamped {φ α : Type}
    (cfg : UseThrottleOptions) (dcfg : UseDebounceOptions) :
    (∀ (s : TCState φ α) (now : Int) (args : α),
      cfg.delay < 0 → cfg.leading = true → s.lastExecuted ≤ now →
      (TCState.invoke cfg s now args).emits
        = s.emits ++ [(now, s.cb, args)]) ∧
    (∀ (ds : DebounceState α) (v : α) (t : Int),
      dcfg.delay ≤ 0 → ds.isFirstCall = false →
      (debounceUpdate dcfg ds v t).timer = some (t, v)) := by
  constructor
  · intro s now args hd hl hle
    have hcond : (cfg.leading && decide (now - s.lastExecuted ≥ cfg.delay))
        = true := by
      simp [hl]
      omega
    simp [TCState.invoke, hcond]
  · intro ds v t hd hfc
    have hmax : max 0 dcfg.delay = 0 := by omega
    simp [debounceUpdate, debounceCommit, debounceEffect,
      debounceResetFirstCall, hfc, hmax]

/-- Witness for the amended C8: with `delay = -100` the first invoke at
t = 1000 emits argument 7 immediately, and with a debounce `delay = -5`
an update at t = 50 arms the quiescence timer to fire at t = 50
itself. -/
theorem C8_witness :
    (TCState.invoke ⟨-100, true, true⟩ (TCState.init 0 : TCState Nat Nat)
        1000 7).emits = [(1000, 0, 7)] ∧
    (debounceUpdate ⟨-5, false, some (-3)⟩
      { value := 0, debouncedValue := 0, isFirstCall := false,
        timer := none, maxWaitTimer := none } 1 50).timer = some (50, 1) := by
  have h := C8_negative_delay_silently_clamped (φ := Nat) (α := Nat)
    ⟨-100, true, true⟩ ⟨-5, false, some (-3)⟩
  have h1 := h.1 (TCState.init 0) 1000 7 (by decide) rfl (by decide)
  have h2 := h.2
    { value := 0, debouncedValue := 0, isFirstCall := false,
      timer := none, maxWaitTimer := none } 1 50 (by decide) rfl
  exact ⟨by simpa [TCState.init] using h1, h2⟩

end Notehooks.Claims
